import Mathlib

/-!
# Verification of the `wgpu-bootstrap` render context lifecycle

Shallow embedding of `src/context.rs`: the `Context` struct, its
construction (`Context::new`), the lazy depth-view accessor
(`Context::depth_texture_view`) and resize handling (`Context::resize`),
together with the free function `create_depth_texture`.

Modelling choices:
* `u32` window dimensions become `Nat` (no arithmetic is performed on
  them, so no wrap-around can occur).
* The GPU surface is modelled by the list of configurations that have
  been applied to it via `surface.configure`, newest first.
* The GPU device is modelled by a fresh-id counter: every texture the
  device creates carries a distinct `id`, so "a newly created texture"
  is expressible.
* The `println!("Depth Texture Created")` diagnostic becomes an entry
  appended to a `log` field.
* Rust panics (the `unwrap_or(surface_caps.formats[0])` indexing, which
  `unwrap_or` evaluates eagerly) become `Option.none` results of
  `Context.new` / `select_surface_format`.
-/

/-- `winit::dpi::PhysicalSize<u32>`. -/
structure PhysicalSize where
  width : Nat
  height : Nat
deriving DecidableEq, Repr

/-- `wgpu::Extent3d`. -/
structure Extent3d where
  width : Nat
  height : Nat
  depth_or_array_layers : Nat
deriving DecidableEq, Repr

/-- A representative fragment of `wgpu::TextureFormat`. -/
inductive TextureFormat where
  | Rgba8Unorm
  | Rgba8UnormSrgb
  | Bgra8Unorm
  | Bgra8UnormSrgb
  | Depth32Float
deriving DecidableEq, Repr

/-- `wgpu::TextureFormat::is_srgb`: true exactly for the sRGB-encoded variants. -/
def TextureFormat.is_srgb : TextureFormat → Bool
  | .Rgba8UnormSrgb => true
  | .Bgra8UnormSrgb => true
  | _ => false

/-- `wgpu::TextureDimension`. -/
inductive TextureDimension where
  | D1
  | D2
  | D3
deriving DecidableEq, Repr

/-- `wgpu::TextureUsages` bit flags, as a record of booleans. -/
structure TextureUsages where
  copy_src : Bool := false
  copy_dst : Bool := false
  texture_binding : Bool := false
  storage_binding : Bool := false
  render_attachment : Bool := false
deriving DecidableEq, Repr

/-- `wgpu::TextureUsages::RENDER_ATTACHMENT`. -/
def TextureUsages.RENDER_ATTACHMENT : TextureUsages :=
  { render_attachment := true }

/-- `wgpu::TextureUsages::TEXTURE_BINDING`. -/
def TextureUsages.TEXTURE_BINDING : TextureUsages :=
  { texture_binding := true }

/-- The `|` operator on `wgpu::TextureUsages`. -/
def TextureUsages.union (a b : TextureUsages) : TextureUsages where
  copy_src := a.copy_src || b.copy_src
  copy_dst := a.copy_dst || b.copy_dst
  texture_binding := a.texture_binding || b.texture_binding
  storage_binding := a.storage_binding || b.storage_binding
  render_attachment := a.render_attachment || b.render_attachment

/-- A representative fragment of `wgpu::PresentMode`. -/
inductive PresentMode where
  | AutoVsync
  | AutoNoVsync
  | Fifo
  | FifoRelaxed
  | Immediate
  | Mailbox
deriving DecidableEq, Repr

/-- A representative fragment of `wgpu::CompositeAlphaMode`. -/
inductive CompositeAlphaMode where
  | Auto
  | Opaque
  | PreMultiplied
  | PostMultiplied
  | Inherit
deriving DecidableEq, Repr

/-- `wgpu::SurfaceConfiguration`. -/
structure SurfaceConfiguration where
  usage : TextureUsages
  format : TextureFormat
  width : Nat
  height : Nat
  present_mode : PresentMode
  alpha_mode : CompositeAlphaMode
  view_formats : List TextureFormat
deriving DecidableEq, Repr

/-- A texture created by `device.create_texture`, remembering every
descriptor field together with a device-assigned fresh `id`. -/
structure Texture where
  id : Nat
  label : Option String
  size : Extent3d
  mip_level_count : Nat
  sample_count : Nat
  dimension : TextureDimension
  format : TextureFormat
  usage : TextureUsages
  view_formats : List TextureFormat
deriving DecidableEq, Repr

/-- `wgpu::TextureViewDescriptor`; its `Default` has an absent label. -/
structure TextureViewDescriptor where
  label : Option String := none
deriving DecidableEq, Repr

instance : Inhabited TextureViewDescriptor := ⟨{}⟩

/-- `wgpu::TextureView`: the viewed texture plus the descriptor used. -/
structure TextureView where
  texture : Texture
  desc : TextureViewDescriptor
deriving DecidableEq, Repr

/-- The capability set returned by `surface.get_capabilities(&adapter)`. -/
structure SurfaceCapabilities where
  formats : List TextureFormat
  present_modes : List PresentMode
  alpha_modes : List CompositeAlphaMode
deriving DecidableEq, Repr

/-- `create_depth_texture` from `src/context.rs`: builds the depth texture
descriptor, creates the texture on the device (consuming a fresh id) and
derives a default view. Returns the view and the device's next fresh id. -/
def create_depth_texture (size : PhysicalSize) (depth_format : TextureFormat)
    (nextId : Nat) : TextureView × Nat :=
  let depth_texture : Texture :=
    { id := nextId
      label := some "Depth Texture Descriptor"
      size := { width := size.width, height := size.height, depth_or_array_layers := 1 }
      mip_level_count := 1
      sample_count := 1
      dimension := TextureDimension.D2
      format := depth_format
      usage := TextureUsages.RENDER_ATTACHMENT.union TextureUsages.TEXTURE_BINDING
      view_formats := [] }
  ({ texture := depth_texture, desc := {} }, nextId + 1)

/-- The `Context` struct of `src/context.rs`.  The opaque `window`,
`device` and `queue` handles carry no observable state beyond the
device's fresh-id counter (`nextTexId`); `surface` is the stack of
configurations applied to it, newest first; `log` records the emitted
diagnostics. -/
structure Context where
  surface : List SurfaceConfiguration
  config : SurfaceConfiguration
  size : PhysicalSize
  depth_format : TextureFormat
  depth_texture_view : Option TextureView
  nextTexId : Nat
  log : List String
deriving DecidableEq, Repr

/-- The surface-format selection in `Context::new`:
`caps.formats.iter().copied().find(|f| f.is_srgb()).unwrap_or(caps.formats[0])`.
Rust's `unwrap_or` evaluates its argument eagerly, so `formats[0]` is
indexed even when an sRGB format exists; on an empty list that indexing
panics, modelled here as `none`. -/
def select_surface_format (formats : List TextureFormat) : Option TextureFormat :=
  match formats.head? with
  | none => none
  | some f0 => some ((formats.find? fun f => f.is_srgb).getD f0)

/-- `Context::new`, with the window's initial inner size and the surface
capabilities as parameters (they come from the windowing system and the
adapter).  The `unwrap` panics on empty capability lists are modelled as
`none`.  The configuration is applied to the surface once, the depth
format is fixed to `Depth32Float`, and no depth view is created. -/
def Context.new (window_size : PhysicalSize) (caps : SurfaceCapabilities) :
    Option Context :=
  match select_surface_format caps.formats, caps.present_modes.head?,
      caps.alpha_modes.head? with
  | some surface_format, some pm, some am =>
      let config : SurfaceConfiguration :=
        { usage := TextureUsages.RENDER_ATTACHMENT
          format := surface_format
          width := window_size.width
          height := window_size.height
          present_mode := pm
          alpha_mode := am
          view_formats := [] }
      some
        { surface := [config]
          config := config
          size := window_size
          depth_format := TextureFormat.Depth32Float
          depth_texture_view := none
          nextTexId := 0
          log := [] }
  | _, _, _ => none

/-- `Context::depth_texture_view`: if the cached view is absent, emit the
diagnostic, create the depth texture at the current size and cache its
view; return the cached view together with the updated context. -/
def Context.depthTextureView (self : Context) : TextureView × Context :=
  match self.depth_texture_view with
  | some v => (v, self)
  | none =>
      let created := create_depth_texture self.size self.depth_format self.nextTexId
      (created.1,
        { self with
            depth_texture_view := some created.1
            nextTexId := created.2
            log := self.log ++ ["Depth Texture Created"] })

/-- `Context::resize`: no-op unless both dimensions are positive;
otherwise update the cached size and the configuration's dimensions,
re-apply the configuration to the surface, and, only if a depth view is
present, eagerly recreate it at the new size. -/
def Context.resize (self : Context) (new_size : PhysicalSize) : Context :=
  if 0 < new_size.width ∧ 0 < new_size.height then
    let config :=
      { self.config with width := new_size.width, height := new_size.height }
    let surface := config :: self.surface
    match self.depth_texture_view with
    | none =>
        { self with size := new_size, config := config, surface := surface }
    | some _ =>
        let created :=
          create_depth_texture new_size self.depth_format self.nextTexId
        { self with
            size := new_size
            config := config
            surface := surface
            depth_texture_view := some created.1
            nextTexId := created.2 }
  else self

/-- Device-counter wellformedness: every cached view was created with an
id the device has already moved past. Holds for every reachable context. -/
def Context.texIdInv (c : Context) : Prop :=
  ∀ v, c.depth_texture_view = some v → v.texture.id < c.nextTexId

/-- The cached-size/configuration mirror invariant of the spec's data model. -/
def Context.sizeMirrorsConfig (c : Context) : Prop :=
  c.config.width = c.size.width ∧ c.config.height = c.size.height

/-- The depth-view dimension invariant of the spec's data model: whenever
the depth view is present, its texture's dimensions equal the cached size. -/
def Context.depthSizeInv (c : Context) : Prop :=
  ∀ v, c.depth_texture_view = some v →
    v.texture.size.width = c.size.width ∧ v.texture.size.height = c.size.height

/-- A concrete surface configuration used to instantiate theorems. -/
def sampleConfig : SurfaceConfiguration :=
  { usage := TextureUsages.RENDER_ATTACHMENT
    format := TextureFormat.Bgra8UnormSrgb
    width := 800
    height := 600
    present_mode := PresentMode.Fifo
    alpha_mode := CompositeAlphaMode.Opaque
    view_formats := [] }

/-- A concrete freshly constructed context (no depth view yet). -/
def sampleCtx : Context :=
  { surface := [sampleConfig]
    config := sampleConfig
    size := { width := 800, height := 600 }
    depth_format := TextureFormat.Depth32Float
    depth_texture_view := none
    nextTexId := 0
    log := [] }

/-- `sampleCtx` after its depth view has been requested once. -/
def sampleCtxWithView : Context :=
  (sampleCtx.depthTextureView).2

/-- `sampleCtx` is reachable: it is the result of `Context.new`. -/
theorem sampleCtx_reachable : Context.new { width := 800, height := 600 }
    { formats := [TextureFormat.Bgra8Unorm, TextureFormat.Bgra8UnormSrgb]
      present_modes := [PresentMode.Fifo]
      alpha_modes := [CompositeAlphaMode.Opaque] } = some sampleCtx := by
  decide

/-- Unfolding of `resize` when both dimensions are positive and no depth
view is present. -/
theorem resize_pos_none_eq (ctx : Context) (ns : PhysicalSize)
    (hw : 0 < ns.width) (hh : 0 < ns.height)
    (h : ctx.depth_texture_view = none) :
    ctx.resize ns =
      { ctx with
          size := ns
          config := { ctx.config with width := ns.width, height := ns.height }
          surface :=
            { ctx.config with width := ns.width, height := ns.height } ::
              ctx.surface } := by
  unfold Context.resize
  rw [if_pos ⟨hw, hh⟩, h]

/-- Unfolding of `resize` when both dimensions are positive and a depth
view is present: the view is eagerly recreated at the new size. -/
theorem resize_pos_some_eq (ctx : Context) (ns : PhysicalSize) (v : TextureView)
    (hw : 0 < ns.width) (hh : 0 < ns.height)
    (h : ctx.depth_texture_view = some v) :
    ctx.resize ns =
      { ctx with
          size := ns
          config := { ctx.config with width := ns.width, height := ns.height }
          surface :=
            { ctx.config with width := ns.width, height := ns.height } ::
              ctx.surface
          depth_texture_view :=
            some (create_depth_texture ns ctx.depth_format ctx.nextTexId).1
          nextTexId := ctx.nextTexId + 1 } := by
  unfold Context.resize
  rw [if_pos ⟨hw, hh⟩, h]
  rfl

/-- C1: for every context state and every `new_size` with zero width or
zero height, `resize new_size` leaves the whole state (cached size,
surface configuration with all its fields, the depth-view slot, and the
surface itself) unchanged. -/
theorem resize_degenerate_noop (ctx : Context) (new_size : PhysicalSize)
    (h : new_size.width = 0 ∨ new_size.height = 0) :
    ctx.resize new_size = ctx := by
  have hcond : ¬(0 < new_size.width ∧ 0 < new_size.height) := by
    rcases h with h | h <;> omega
  unfold Context.resize
  rw [if_neg hcond]

/-- C1 witness: a degenerate resize of the sample context is a no-op. -/
theorem resize_degenerate_noop_witness :
    (({ width := 0, height := 600 } : PhysicalSize).width = 0 ∨
      ({ width := 0, height := 600 } : PhysicalSize).height = 0) ∧
    sampleCtx.resize { width := 0, height := 600 } = sampleCtx :=
  ⟨Or.inl rfl,
    resize_degenerate_noop sampleCtx { width := 0, height := 600 } (Or.inl rfl)⟩

/-- C3: if the depth view has never been requested (slot absent), any
resize leaves it absent — resize never creates a depth view. -/
theorem resize_no_depth_creation (ctx : Context) (new_size : PhysicalSize)
    (h : ctx.depth_texture_view = none) :
    (ctx.resize new_size).depth_texture_view = none := by
  unfold Context.resize
  split
  · rw [h]
  · exact h

/-- C3 witness: resizing the freshly constructed sample context (depth
view absent) keeps the depth view absent. -/
theorem resize_no_depth_creation_witness :
    sampleCtx.depth_texture_view = none ∧
    (sampleCtx.resize { width := 1024, height := 768 }).depth_texture_view = none :=
  ⟨rfl, resize_no_depth_creation sampleCtx { width := 1024, height := 768 } rfl⟩

/-- Helper: a context produced by `Context.new` satisfies `texIdInv`. -/
theorem texIdInv_new (ws : PhysicalSize) (caps : SurfaceCapabilities)
    (c : Context) (h : Context.new ws caps = some c) : c.texIdInv := by
  unfold Context.new at h
  split at h
  · injection h with h
    subst h
    intro v hv
    exact absurd hv (by simp)
  · exact absurd h (by simp)

/-- Helper: the depth-view accessor preserves `texIdInv`. -/
theorem texIdInv_depthTextureView (ctx : Context) (h : ctx.texIdInv) :
    ctx.depthTextureView.2.texIdInv := by
  unfold Context.depthTextureView
  split
  · exact h
  · intro v hv
    injection hv with hv
    subst hv
    exact Nat.lt_succ_self _

/-- Helper: `resize` preserves `texIdInv`. -/
theorem texIdInv_resize (ctx : Context) (ns : PhysicalSize)
    (h : ctx.texIdInv) : (ctx.resize ns).texIdInv := by
  unfold Context.resize
  split
  · split
    · intro v hv
      exact h v hv
    · intro v hv
      injection hv with hv
      subst hv
      exact Nat.lt_succ_self _
  · exact h

/-- C4: a non-degenerate `resize new_size` sets the configuration's width
and height and the cached size to `new_size` and pushes the updated
configuration onto the surface (re-application); moreover the
size-mirrors-configuration invariant holds after construction and is
preserved by the depth-view accessor and by every resize. -/
theorem resize_config_mirrors_size :
    (∀ (ctx : Context) (ns : PhysicalSize), 0 < ns.width → 0 < ns.height →
      (ctx.resize ns).config.width = ns.width ∧
      (ctx.resize ns).config.height = ns.height ∧
      (ctx.resize ns).size = ns ∧
      (ctx.resize ns).surface = (ctx.resize ns).config :: ctx.surface) ∧
    (∀ (ws : PhysicalSize) (caps : SurfaceCapabilities) (c : Context),
      Context.new ws caps = some c → c.sizeMirrorsConfig) ∧
    (∀ ctx : Context, ctx.sizeMirrorsConfig →
      ctx.depthTextureView.2.sizeMirrorsConfig) ∧
    (∀ (ctx : Context) (ns : PhysicalSize), ctx.sizeMirrorsConfig →
      (ctx.resize ns).sizeMirrorsConfig) := by
  refine ⟨?_, ?_, ?_, ?_⟩
  · intro ctx ns hw hh
    cases hv : ctx.depth_texture_view with
    | none =>
        rw [resize_pos_none_eq ctx ns hw hh hv]
        exact ⟨rfl, rfl, rfl, rfl⟩
    | some v =>
        rw [resize_pos_some_eq ctx ns v hw hh hv]
        exact ⟨rfl, rfl, rfl, rfl⟩
  · intro ws caps c h
    unfold Context.new at h
    split at h
    · injection h with h
      subst h
      exact ⟨rfl, rfl⟩
    · exact absurd h (by simp)
  · intro ctx h
    unfold Context.depthTextureView
    split
    · exact h
    · exact h
  · intro ctx ns h
    by_cases hpos : 0 < ns.width ∧ 0 < ns.height
    · cases hv : ctx.depth_texture_view with
      | none =>
          rw [resize_pos_none_eq ctx ns hpos.1 hpos.2 hv]
          exact ⟨rfl, rfl⟩
      | some v =>
          rw [resize_pos_some_eq ctx ns v hpos.1 hpos.2 hv]
          exact ⟨rfl, rfl⟩
    · unfold Context.resize
      rw [if_neg hpos]
      exact h

/-- C4 witness: resizing the sample context to 1024 x 768 updates size
and configuration together, and the mirror invariant holds afterwards. -/
theorem resize_config_mirrors_size_witness :
    (sampleCtx.resize { width := 1024, height := 768 }).config.width = 1024 ∧
    (sampleCtx.resize { width := 1024, height := 768 }).size =
      { width := 1024, height := 768 } ∧
    (sampleCtx.resize { width := 1024, height := 768 }).surface =
      (sampleCtx.resize { width := 1024, height := 768 }).config ::
        sampleCtx.surface ∧
    (sampleCtx.resize { width := 1024, height := 768 }).sizeMirrorsConfig :=
  ⟨(resize_config_mirrors_size.1 sampleCtx _ (by decide) (by decide)).1,
   (resize_config_mirrors_size.1 sampleCtx _ (by decide) (by decide)).2.2.1,
   (resize_config_mirrors_size.1 sampleCtx _ (by decide) (by decide)).2.2.2,
   resize_config_mirrors_size.2.2.2 sampleCtx _ ⟨rfl, rfl⟩⟩

/-- C8: whenever the depth view is present its texture's dimensions equal
the cached size — the invariant holds after construction and is preserved
by the depth-view accessor and by resize (read-only accessors do not
change the state). -/
theorem depth_view_matches_size :
    (∀ (ws : PhysicalSize) (caps : SurfaceCapabilities) (c : Context),
      Context.new ws caps = some c → c.depthSizeInv) ∧
    (∀ ctx : Context, ctx.depthSizeInv → ctx.depthTextureView.2.depthSizeInv) ∧
    (∀ (ctx : Context) (ns : PhysicalSize), ctx.depthSizeInv →
      (ctx.resize ns).depthSizeInv) := by
  refine ⟨?_, ?_, ?_⟩
  · intro ws caps c h
    unfold Context.new at h
    split at h
    · injection h with h
      subst h
      intro v hv
      exact absurd hv (by simp)
    · exact absurd h (by simp)
  · intro ctx h
    unfold Context.depthTextureView
    split
    · exact h
    · intro v hv
      injection hv with hv
      subst hv
      exact ⟨rfl, rfl⟩
  · intro ctx ns h
    by_cases hpos : 0 < ns.width ∧ 0 < ns.height
    · cases hv : ctx.depth_texture_view with
      | none =>
          rw [resize_pos_none_eq ctx ns hpos.1 hpos.2 hv]
          intro v hv'
          exact absurd (hv ▸ hv') (by simp)
      | some v =>
          rw [resize_pos_some_eq ctx ns v hpos.1 hpos.2 hv]
          intro w hw
          injection hw with hw
          subst hw
          exact ⟨rfl, rfl⟩
    · unfold Context.resize
      rw [if_neg hpos]
      exact h

/-- C8 witness: the invariant holds on the freshly constructed sample
context, after its first depth-view access, and after a later resize. -/
theorem depth_view_matches_size_witness :
    sampleCtx.depthSizeInv ∧ sampleCtxWithView.depthSizeInv ∧
    (sampleCtxWithView.resize { width := 1024, height := 768 }).depthSizeInv :=
  ⟨depth_view_matches_size.1 { width := 800, height := 600 } _ sampleCtx
      sampleCtx_reachable,
   depth_view_matches_size.2.1 sampleCtx
     (depth_view_matches_size.1 { width := 800, height := 600 } _ sampleCtx
       sampleCtx_reachable),
   depth_view_matches_size.2.2 sampleCtxWithView _
     (depth_view_matches_size.2.1 sampleCtx
       (depth_view_matches_size.1 { width := 800, height := 600 } _ sampleCtx
         sampleCtx_reachable))⟩

/-- C2: with a depth view present and a positive `new_size` different
from the current size, `resize` itself (eagerly) stores the view created
by `create_depth_texture` at `new_size`; any view found in the slot
afterwards has `new_size` dimensions, carries the device's fresh texture
id, and is distinct from the old view. -/
theorem resize_recreates_depth_view (ctx : Context) (ns : PhysicalSize)
    (v : TextureView) (hv : ctx.depth_texture_view = some v)
    (hw : 0 < ns.width) (hh : 0 < ns.height) (_hne : ns ≠ ctx.size)
    (hid : ctx.texIdInv) :
    (ctx.resize ns).depth_texture_view =
      some (create_depth_texture ns ctx.depth_format ctx.nextTexId).1 ∧
    ∀ w, (ctx.resize ns).depth_texture_view = some w →
      w.texture.size.width = ns.width ∧ w.texture.size.height = ns.height ∧
      w.texture.id = ctx.nextTexId ∧ w ≠ v := by
  rw [resize_pos_some_eq ctx ns v hw hh hv]
  refine ⟨rfl, ?_⟩
  intro w hw'
  injection hw' with hw'
  subst hw'
  refine ⟨rfl, rfl, rfl, ?_⟩
  intro heq
  have hlt : v.texture.id < ctx.nextTexId := hid v hv
  have : v.texture.id = ctx.nextTexId := by
    rw [← heq]
    rfl
  omega

/-- C2 witness: resizing the sample context (depth view present at
800 x 600) to 1024 x 768 eagerly installs a fresh view at the new size,
distinct from the old one. -/
theorem resize_recreates_depth_view_witness :
    (sampleCtxWithView.resize { width := 1024, height := 768 }).depth_texture_view =
      some (create_depth_texture { width := 1024, height := 768 }
        sampleCtxWithView.depth_format sampleCtxWithView.nextTexId).1 ∧
    ∀ w, (sampleCtxWithView.resize { width := 1024, height := 768 }).depth_texture_view =
        some w →
      w.texture.size.width = 1024 ∧ w.texture.size.height = 768 ∧
      w.texture.id = sampleCtxWithView.nextTexId ∧
      w ≠ sampleCtx.depthTextureView.1 :=
  resize_recreates_depth_view sampleCtxWithView { width := 1024, height := 768 }
    sampleCtx.depthTextureView.1 rfl (by decide) (by decide) (by decide)
    (texIdInv_depthTextureView sampleCtx
      (texIdInv_new { width := 800, height := 600 } _ sampleCtx sampleCtx_reachable))

/-- C10: a non-degenerate resize with a depth view present performs no
change detection — even for `new_size` equal to the current size it
re-applies the configuration to the surface and installs a freshly
created depth view (consuming a new texture id), while leaving the
configuration's format, usage, present mode and alpha mode untouched. -/
theorem resize_no_change_detection (ctx : Context) (ns : PhysicalSize)
    (v : TextureView) (hv : ctx.depth_texture_view = some v)
    (hw : 0 < ns.width) (hh : 0 < ns.height) :
    (ctx.resize ns).surface = (ctx.resize ns).config :: ctx.surface ∧
    (ctx.resize ns).depth_texture_view =
      some (create_depth_texture ns ctx.depth_format ctx.nextTexId).1 ∧
    (create_depth_texture ns ctx.depth_format ctx.nextTexId).1.texture.id =
      ctx.nextTexId ∧
    (ctx.resize ns).nextTexId = ctx.nextTexId + 1 ∧
    (ctx.resize ns).config.format = ctx.config.format ∧
    (ctx.resize ns).config.usage = ctx.config.usage ∧
    (ctx.resize ns).config.present_mode = ctx.config.present_mode ∧
    (ctx.resize ns).config.alpha_mode = ctx.config.alpha_mode := by
  rw [resize_pos_some_eq ctx ns v hw hh hv]
  exact ⟨rfl, rfl, rfl, rfl, rfl, rfl, rfl, rfl⟩

/-- C10 witness: resizing the sample context (view present, size
800 x 600) to the very same 800 x 600 still reconfigures the surface and
replaces the depth view with a fresh one. -/
theorem resize_no_change_detection_witness :
    sampleCtxWithView.size = { width := 800, height := 600 } ∧
    ((sampleCtxWithView.resize { width := 800, height := 600 }).surface =
      (sampleCtxWithView.resize { width := 800, height := 600 }).config ::
        sampleCtxWithView.surface ∧
    (sampleCtxWithView.resize { width := 800, height := 600 }).depth_texture_view =
      some (create_depth_texture { width := 800, height := 600 }
        sampleCtxWithView.depth_format sampleCtxWithView.nextTexId).1 ∧
    (create_depth_texture { width := 800, height := 600 }
      sampleCtxWithView.depth_format sampleCtxWithView.nextTexId).1.texture.id =
      sampleCtxWithView.nextTexId ∧
    (sampleCtxWithView.resize { width := 800, height := 600 }).nextTexId =
      sampleCtxWithView.nextTexId + 1 ∧
    (sampleCtxWithView.resize { width := 800, height := 600 }).config.format =
      sampleCtxWithView.config.format ∧
    (sampleCtxWithView.resize { width := 800, height := 600 }).config.usage =
      sampleCtxWithView.config.usage ∧
    (sampleCtxWithView.resize { width := 800, height := 600 }).config.present_mode =
      sampleCtxWithView.config.present_mode ∧
    (sampleCtxWithView.resize { width := 800, height := 600 }).config.alpha_mode =
      sampleCtxWithView.config.alpha_mode) :=
  ⟨rfl,
    resize_no_change_detection sampleCtxWithView { width := 800, height := 600 }
      sampleCtx.depthTextureView.1 rfl (by decide) (by decide)⟩

/-- C5 counterexample: on a context whose depth view is already present,
two depth-view accessor calls emit zero creation events, refuting the
unconditional "exactly once across the two calls". -/
theorem depth_view_twice_counterexample :
    sampleCtxWithView.depthTextureView.2.depthTextureView.2.log.length =
      sampleCtxWithView.log.length ∧
    ¬(sampleCtxWithView.depthTextureView.2.depthTextureView.2.log.length =
      sampleCtxWithView.log.length + 1) := by
  decide

/-- C5 (amended): calling the accessor twice without an intervening
resize returns the same cached view, the second call changes nothing;
the creation event is emitted exactly once across the two calls when the
view was absent before the first call, and zero times when it was
already present. -/
theorem depth_view_idempotent (ctx : Context) :
    ctx.depthTextureView.2.depthTextureView.1 = ctx.depthTextureView.1 ∧
    ctx.depthTextureView.2.depthTextureView.2 = ctx.depthTextureView.2 ∧
    (ctx.depth_texture_view = none →
      ctx.depthTextureView.2.depthTextureView.2.log =
        ctx.log ++ ["Depth Texture Created"]) ∧
    (∀ v, ctx.depth_texture_view = some v →
      ctx.depthTextureView.2.depthTextureView.2.log = ctx.log) := by
  cases hv : ctx.depth_texture_view with
  | none =>
      have h1 : ctx.depthTextureView =
          ((create_depth_texture ctx.size ctx.depth_format ctx.nextTexId).1,
            { ctx with
                depth_texture_view :=
                  some (create_depth_texture ctx.size ctx.depth_format ctx.nextTexId).1
                nextTexId := ctx.nextTexId + 1
                log := ctx.log ++ ["Depth Texture Created"] }) := by
        unfold Context.depthTextureView
        rw [hv]
        rfl
      rw [h1]
      refine ⟨rfl, rfl, fun _ => rfl, ?_⟩
      intro v hv'
      exact Option.noConfusion hv'
  | some v =>
      have h1 : ctx.depthTextureView = (v, ctx) := by
        unfold Context.depthTextureView
        rw [hv]
      rw [h1]
      refine ⟨?_, ?_, ?_, ?_⟩
      · rw [h1]
      · rw [h1]
      · intro h
        exact Option.noConfusion h
      · intro w _
        rw [h1]

/-- C5 witness: on the freshly constructed sample context (view absent),
the two calls agree on the returned view and emit one creation event. -/
theorem depth_view_idempotent_witness :
    sampleCtx.depthTextureView.2.depthTextureView.1 =
      sampleCtx.depthTextureView.1 ∧
    sampleCtx.depthTextureView.2.depthTextureView.2 =
      sampleCtx.depthTextureView.2 ∧
    sampleCtx.depthTextureView.2.depthTextureView.2.log =
      sampleCtx.log ++ ["Depth Texture Created"] :=
  ⟨(depth_view_idempotent sampleCtx).1,
   (depth_view_idempotent sampleCtx).2.1,
   (depth_view_idempotent sampleCtx).2.2.1 rfl⟩

/-- C9: every depth-texture creation uses exactly the descriptor of
`create_depth_texture` — 2D dimension, extent width x height x 1, one
mip level, one sample, the context's depth format, render-attachment
plus texture-binding usage — and derives the view with the default view
descriptor; construction fixes `depth_format` to `Depth32Float` and
creates no texture; both creation sites (first access and resize
recreation) call `create_depth_texture` with the cached size (resp. the
new size) and the context's depth format. -/
theorem depth_texture_creation_params :
    (∀ (size : PhysicalSize) (df : TextureFormat) (nid : Nat),
      (create_depth_texture size df nid).1.texture.dimension =
        TextureDimension.D2 ∧
      (create_depth_texture size df nid).1.texture.size =
        { width := size.width, height := size.height, depth_or_array_layers := 1 } ∧
      (create_depth_texture size df nid).1.texture.mip_level_count = 1 ∧
      (create_depth_texture size df nid).1.texture.sample_count = 1 ∧
      (create_depth_texture size df nid).1.texture.format = df ∧
      (create_depth_texture size df nid).1.texture.usage =
        TextureUsages.RENDER_ATTACHMENT.union TextureUsages.TEXTURE_BINDING ∧
      (create_depth_texture size df nid).1.texture.usage.render_attachment = true ∧
      (create_depth_texture size df nid).1.texture.usage.texture_binding = true ∧
      (create_depth_texture size df nid).1.desc = {}) ∧
    (∀ (ws : PhysicalSize) (caps : SurfaceCapabilities) (c : Context),
      Context.new ws caps = some c →
      c.depth_format = TextureFormat.Depth32Float ∧
      c.depth_texture_view = none) ∧
    (∀ ctx : Context, ctx.depth_texture_view = none →
      ctx.depthTextureView.2.depth_texture_view =
        some (create_depth_texture ctx.size ctx.depth_format ctx.nextTexId).1) ∧
    (∀ (ctx : Context) (ns : PhysicalSize) (v : TextureView),
      ctx.depth_texture_view = some v → 0 < ns.width → 0 < ns.height →
      (ctx.resize ns).depth_texture_view =
        some (create_depth_texture ns ctx.depth_format ctx.nextTexId).1) := by
  refine ⟨?_, ?_, ?_, ?_⟩
  · intro size df nid
    exact ⟨rfl, rfl, rfl, rfl, rfl, rfl, rfl, rfl, rfl⟩
  · intro ws caps c h
    unfold Context.new at h
    split at h
    · injection h with h
      subst h
      exact ⟨rfl, rfl⟩
    · exact absurd h (by simp)
  · intro ctx h
    unfold Context.depthTextureView
    rw [h]
  · intro ctx ns v hv hw hh
    rw [resize_pos_some_eq ctx ns v hw hh hv]

/-- C9 witness: concrete creation at 800 x 600 with `Depth32Float` and
fresh id 0, plus the construction facts for the sample context. -/
theorem depth_texture_creation_params_witness :
    (create_depth_texture { width := 800, height := 600 }
      TextureFormat.Depth32Float 0).1.texture.dimension = TextureDimension.D2 ∧
    (create_depth_texture { width := 800, height := 600 }
      TextureFormat.Depth32Float 0).1.texture.size =
      { width := 800, height := 600, depth_or_array_layers := 1 } ∧
    sampleCtx.depth_format = TextureFormat.Depth32Float ∧
    sampleCtx.depthTextureView.2.depth_texture_view =
      some (create_depth_texture sampleCtx.size sampleCtx.depth_format
        sampleCtx.nextTexId).1 :=
  ⟨(depth_texture_creation_params.1 { width := 800, height := 600 }
      TextureFormat.Depth32Float 0).1,
   (depth_texture_creation_params.1 { width := 800, height := 600 }
      TextureFormat.Depth32Float 0).2.1,
   (depth_texture_creation_params.2.1 { width := 800, height := 600 } _ sampleCtx
      sampleCtx_reachable).1,
   depth_texture_creation_params.2.2.1 sampleCtx rfl⟩

/-- Helper: `find?` returns the entry at index `i` when that entry
satisfies the sRGB test and no earlier entry does. -/
theorem find?_first_srgb (formats : List TextureFormat) (i : Nat)
    (hi : i < formats.length)
    (hs : (formats.get ⟨i, hi⟩).is_srgb = true)
    (hb : ((formats.take i).all fun f => !f.is_srgb) = true) :
    (formats.find? fun f => f.is_srgb) = some (formats.get ⟨i, hi⟩) := by
  induction formats generalizing i with
  | nil => exact absurd hi (Nat.not_lt_zero i)
  | cons f0 fs ih =>
      cases i with
      | zero =>
          exact List.find?_cons_of_pos fs hs
      | succ j =>
          have hb' : ((!f0.is_srgb) &&
              ((fs.take j).all fun f => !f.is_srgb)) = true := hb
          rw [Bool.and_eq_true] at hb'
          have h0 : ¬((fun f => TextureFormat.is_srgb f) f0 = true) := by
            simp only [Bool.not_eq_true'] at hb'
            simp [hb'.1]
          rw [List.find?_cons_of_neg fs h0]
          exact ih j (Nat.lt_of_succ_lt_succ hi) hs hb'.2

/-- C6: construction's surface-format selection — if no entry of the
capability list is sRGB-flagged the selected format is the first entry
(`head?`, so `none` only for the empty list), and if the entry at index
`i` is the first sRGB-flagged one, that entry is selected. -/
theorem surface_format_selection :
    (∀ formats : List TextureFormat, (∀ f ∈ formats, f.is_srgb = false) →
      select_surface_format formats = formats.head?) ∧
    (∀ (formats : List TextureFormat) (i : Nat) (hi : i < formats.length),
      (formats.get ⟨i, hi⟩).is_srgb = true →
      ((formats.take i).all fun f => !f.is_srgb) = true →
      select_surface_format formats = some (formats.get ⟨i, hi⟩)) := by
  constructor
  · intro formats h
    cases formats with
    | nil => rfl
    | cons f0 fs =>
        have hf : ((f0 :: fs).find? fun f => f.is_srgb) = none :=
          List.find?_eq_none.mpr fun x hx => by simp [h x hx]
        unfold select_surface_format
        rw [hf]
        rfl
  · intro formats i hi hs hb
    cases formats with
    | nil => exact absurd hi (Nat.not_lt_zero i)
    | cons f0 fs =>
        unfold select_surface_format
        rw [find?_first_srgb (f0 :: fs) i hi hs hb]
        rfl

/-- C6 witness: without an sRGB entry the first entry is selected; with
one, the first sRGB-flagged entry is selected. -/
theorem surface_format_selection_witness :
    select_surface_format [TextureFormat.Bgra8Unorm, TextureFormat.Rgba8Unorm] =
      some TextureFormat.Bgra8Unorm ∧
    select_surface_format
        [TextureFormat.Bgra8Unorm, TextureFormat.Bgra8UnormSrgb,
          TextureFormat.Rgba8UnormSrgb] =
      some TextureFormat.Bgra8UnormSrgb :=
  ⟨surface_format_selection.1
      [TextureFormat.Bgra8Unorm, TextureFormat.Rgba8Unorm] (by decide),
   surface_format_selection.2
      [TextureFormat.Bgra8Unorm, TextureFormat.Bgra8UnormSrgb,
        TextureFormat.Rgba8UnormSrgb] 1 (by decide) (by decide) (by decide)⟩

/-- C7 counterexample: on the empty capability list the format selection
faults (the eagerly evaluated `formats[0]` inside `unwrap_or` indexes out
of bounds), modelled as `none` — selection does not succeed for every
list. -/
theorem select_surface_format_empty_faults :
    select_surface_format [] = none ∧
    Context.new { width := 800, height := 600 }
      { formats := []
        present_modes := [PresentMode.Fifo]
        alpha_modes := [CompositeAlphaMode.Opaque] } = none := by
  exact ⟨rfl, rfl⟩

/-- C7 (amended): for every NONEMPTY capability list the selection
succeeds — the fallback indexing is in bounds and a format is returned. -/
theorem select_surface_format_nonempty_total (formats : List TextureFormat)
    (h : formats ≠ []) : (select_surface_format formats).isSome = true := by
  cases formats with
  | nil => exact absurd rfl h
  | cons f0 fs => rfl

/-- C7 witness: a singleton non-sRGB capability list yields a format. -/
theorem select_surface_format_nonempty_total_witness :
    ([TextureFormat.Bgra8Unorm] ≠ ([] : List TextureFormat)) ∧
    (select_surface_format [TextureFormat.Bgra8Unorm]).isSome = true :=
  ⟨by decide, select_surface_format_nonempty_total [TextureFormat.Bgra8Unorm]
    (by decide)⟩
